import Mathlib

/-!
Verification development for the Green-Lab GC-energy experiment orchestration
core (repository `Green-Lab-Course-Work-Group-5`).

The Python sources are shallowly embedded as pure Lean functions:
 - machine floats are modelled as `Rat` (all constants in the sources are
   exact decimal literals, so the arithmetic of interest is exact);
 - the process-wide `random` generator is modelled as an explicitly threaded
   `RNGState`, with `random.gauss(mu, sigma)` a deterministic function of
   that state — determinism and call ordering are what the claims are about,
   the concrete distribution is irrelevant to them;
 - fallible parsing (`float(...)` raising `ValueError`) is modelled with
   `Option`;
 - string operations (`split`, `strip`, slicing, containment) are
   reimplemented structurally over `String.data` so that the kernel can
   evaluate them on concrete inputs.
-/

set_option maxRecDepth 8000
set_option maxHeartbeats 1600000

/- ===================== String primitives ===================== -/

/-- Splits a character list at every occurrence of `sep`, like Python
`str.split(sep)` for a one-character separator. `cur` is the accumulator for
the current field (kept reversed). -/
def splitOnCharAux (sep : Char) (cur : List Char) : List Char → List (List Char)
  | [] => [cur.reverse]
  | c :: cs =>
    if c = sep then cur.reverse :: splitOnCharAux sep [] cs
    else splitOnCharAux sep (c :: cur) cs

/-- Models Python `s.split(',')`. -/
def splitOnComma (s : String) : List String :=
  (splitOnCharAux ',' [] s.data).map (fun l => ⟨l⟩)

/-- Models Python `s.strip()`: drop whitespace from both ends. -/
def pyStrip (s : String) : String :=
  ⟨((s.data.dropWhile Char.isWhitespace).reverse.dropWhile Char.isWhitespace).reverse⟩

/-- Models Python `s[:n]`: the first `n` characters of `s`. -/
def takeChars (n : Nat) (s : String) : String := ⟨s.data.take n⟩

/-- Models Python `pat in s` (substring containment). -/
def strContains (s pat : String) : Bool :=
  s.data.tails.any (fun t => pat.data.isPrefixOf t)

/-- Numeric value of a list of decimal digit characters. -/
def digitsVal (l : List Char) : Nat :=
  l.foldl (fun n c => 10 * n + (c.toNat - 48)) 0

/-- True when `l` is a nonempty list of decimal digits. -/
def isDigits (l : List Char) : Bool := !l.isEmpty && l.all Char.isDigit

/-- Models Python `float(s)` on plain (optionally signed) decimal literals,
returning the value as an exact pair (signed mantissa, number of fractional
digits); `none` models `float` raising `ValueError`. Exponent notation,
`inf`/`nan` and embedded whitespace are not used by this repository's result
records and are modelled as parse failures. -/
def parseFloatRep (s : String) : Option (Int × Nat) :=
  let core (t : List Char) : Option (Int × Nat) :=
    match splitOnCharAux '.' [] t with
    | [ip] => if isDigits ip then some ((digitsVal ip : Int), 0) else none
    | [ip, fp] =>
        if (isDigits ip && (fp.isEmpty || isDigits fp)) || (ip.isEmpty && isDigits fp) then
          some ((digitsVal ip : Int) * 10 ^ fp.length + (digitsVal fp : Int), fp.length)
        else none
    | _ => none
  match s.data with
  | '-' :: rest => (core rest).map (fun r => (-r.1, r.2))
  | '+' :: rest => core rest
  | l => core l

/-- The rational value of a `parseFloatRep` result. -/
def floatVal (r : Int × Nat) : Rat := (r.1 : Rat) / 10 ^ r.2

/-- Models Python `float(s)` as a rational number (`none` = `ValueError`). -/
def parseFloat (s : String) : Option Rat := (parseFloatRep s).map floatVal

/- ===================== Result Parser (populate_run_data) ===================== -/

/-- The dictionary returned by `RunnerConfig.populate_run_data`
(`greenlab_rpi/Run_Config_batch.py` and `Assignment_3/baseline/Run_Config_2.py`,
whose parsing logic is identical). -/
structure RunData where
  energy_j : Option Rat
  runtime_s : Option Rat
  status : String
  batch_num : Nat
deriving DecidableEq, Repr

/-- Models the evaluation of `float(parts[i]) if parts[i] != 'FAILED' else None`
inside the `try` block: `some none` is the sentinel (`None` stored, no
exception), `some (some v)` a parsed number, `none` a raised `ValueError`. -/
def tryFloatField (s : String) : Option (Option Rat) :=
  if s = "FAILED" then some none else (parseFloat s).map some

/-- Shallow embedding of `RunnerConfig.populate_run_data`. The input is the
contents of `<run_dir>/dut_results/result.csv` (`none` when the file does not
exist) together with `self.current_batch`. The Python initialises
`run_data = {'energy_j': None, 'runtime_s': None, 'status': 'FAILED',
'batch_num': self.current_batch}` and mutates it field by field inside a
`try` block; an exception caught mid-way keeps every field assigned before
the raising statement, which the three-way `match` below reproduces. -/
def populate_run_data (file : Option String) (current_batch : Nat) : RunData :=
  let d : RunData := ⟨none, none, "FAILED", current_batch⟩
  match file with
  | none => d
  | some content =>
    let parts := splitOnComma (pyStrip content)
    if parts.length ≥ 9 then
      match tryFloatField (parts.getD 6 "") with
      | none => d
      | some rt =>
        match tryFloatField (parts.getD 7 "") with
        | none => { d with runtime_s := rt }
        | some en => ⟨en, rt, parts.getD 8 "", current_batch⟩
    else d

/- ===================== Batch Scheduler ===================== -/

/-- The batch-tracking state of `RunnerConfig` (`self.current_batch`,
`self.runs_in_batch`). -/
structure BatchState where
  current_batch : Nat
  runs_in_batch : Nat
deriving DecidableEq, Repr

/-- Models the batch fields set in `RunnerConfig.__init__`:
`self.current_batch = 1`, `self.runs_in_batch = 0`. -/
def batchInitState : BatchState := ⟨1, 0⟩

/-- The `BATCH_SIZE` configured in `greenlab_rpi/Run_Config_batch.py`. -/
def BATCH_SIZE : Nat := 6

/-- Shallow embedding of `RunnerConfig.before_run` restricted to its effect on
the batch state: when `runs_in_batch >= BATCH_SIZE` it blocks on `input()`
(the returned `Bool` records that the operator-confirmation prompt was
issued) and, once confirmation arrives, increments `current_batch` and
resets `runs_in_batch` to zero. -/
def before_run (batch_size : Nat) (s : BatchState) : Bool × BatchState :=
  if s.runs_in_batch ≥ batch_size then (true, ⟨s.current_batch + 1, 0⟩)
  else (false, s)

/-- Shallow embedding of `RunnerConfig.start_run`'s effect on the batch state:
`self.runs_in_batch += 1`. -/
def start_run (s : BatchState) : BatchState :=
  ⟨s.current_batch, s.runs_in_batch + 1⟩

/-- One trial as driven by the lifecycle: `before_run` (possibly pausing for
confirmation) followed by `start_run`. The `Bool` records whether operator
confirmation was requested before this trial. -/
def trialStep (batch_size : Nat) (s : BatchState) : Bool × BatchState :=
  let (paused, s1) := before_run batch_size s
  (paused, start_run s1)

/-- The batch state after the first `k` trials of the plan. -/
def runTrials (batch_size : Nat) : Nat → BatchState
  | 0 => batchInitState
  | k + 1 => (trialStep batch_size (runTrials batch_size k)).2

/-- Whether the scheduler requests operator confirmation before trial `k`
(1-based). -/
def pauseBefore (batch_size k : Nat) : Bool :=
  (trialStep batch_size (runTrials batch_size (k - 1))).1

/-- The batch number recorded with trial `k` (1-based): the value of
`self.current_batch` read by `start_measurement` / `populate_run_data`
while trial `k` is active. -/
def batchOfTrial (batch_size k : Nat) : Nat :=
  (runTrials batch_size k).current_batch

/- ===================== Remote Execution Client (interact) ===================== -/

/-- Result of `subprocess.run(ssh_cmd, ..., timeout=...)`: either it raises
`subprocess.TimeoutExpired` or the remote command completed with an exit code
and captured output. -/
inductive SubprocResult where
  | timeoutExpired
  | completed (returncode : Int) (stdout stderr : String)
deriving DecidableEq, Repr

/-- The context fields written by `RunnerConfig.interact`
(`ssh_returncode`, `ssh_stdout`, `ssh_stderr`). -/
structure InteractCtx where
  ssh_returncode : Int
  ssh_stdout : String
  ssh_stderr : String
deriving DecidableEq, Repr

/-- The classified outcome of one remote trial attempt, as distinguished by
the three branches of `RunnerConfig.interact` (success log, failure log with
`stderr[:500]` excerpt, timeout handler). -/
inductive Outcome where
  | success
  | failed (stderrExcerpt : String)
  | timeout
deriving DecidableEq, Repr

/-- Shallow embedding of `RunnerConfig.interact`: stores the subprocess
result on the context and classifies the outcome. On
`subprocess.TimeoutExpired` the context records returncode `-1`, empty
stdout and the literal stderr `"TIMEOUT"`. -/
def interact (r : SubprocResult) : InteractCtx × Outcome :=
  match r with
  | .completed rc out err =>
      (⟨rc, out, err⟩, if rc = 0 then .success else .failed (takeChars 500 err))
  | .timeoutExpired => (⟨-1, "", "TIMEOUT"⟩, .timeout)

/- ===================== start_measurement (remote command) ===================== -/

/-- The service-style subjects listed in `start_measurement`
(`if subject in ["PetClinic", "TodoApp", "ANDIE"]`). -/
def service_subjects : List String := ["PetClinic", "TodoApp", "ANDIE"]

/-- The script selected for a subject, as a standalone function of the
subject alone (the categorical selection rule). -/
def script_for (subject : String) : String :=
  if subject ∈ service_subjects then "Service_Apps_Run_Single_Experiment.sh"
  else "Run_Single_Experiment.sh"

/-- Shallow embedding of the command construction in
`RunnerConfig.start_measurement` (`greenlab_rpi/Run_Config_batch.py`):
the script choice and the f-string
`f"cd {laptop_exp_dir} && ./{script_name} {subject} {gc} {workload} {jdk} {rep} {run_num}"`. -/
def start_measurement_cmd
    (laptop_exp_dir subject gc workload jdk rep run_num : String) : String :=
  let script_name :=
    if subject ∈ ["PetClinic", "TodoApp", "ANDIE"] then
      "Service_Apps_Run_Single_Experiment.sh"
    else
      "Run_Single_Experiment.sh"
  "cd " ++ laptop_exp_dir ++ " && " ++ "./" ++ script_name ++ " " ++ subject
    ++ " " ++ gc ++ " " ++ workload ++ " " ++ jdk ++ " " ++ rep ++ " " ++ run_num

/- ===================== stop_measurement (artifact retrieval) ===================== -/

/-- The observable filesystem/transfer actions performed by
`RunnerConfig.stop_measurement`: the `local_result_dir.mkdir(parents=True,
exist_ok=True)` call and one `scp` attempt per expected file (with its
individual success flag). -/
inductive RetrievalAction where
  | mkdirLocal
  | scpFile (fname : String) (ok : Bool)
deriving DecidableEq, Repr

/-- The two expected result files (`for fname in ['energy.csv', 'result.csv']`). -/
def result_files : List String := ["energy.csv", "result.csv"]

/-- Shallow embedding of `RunnerConfig.stop_measurement` as the trace of its
actions. `scpOk f` is the environment's answer to the `scp` attempt for file
`f` (returncode 0 or not). The Python only logs an individual failure and
continues with the next file; no exception is raised and no transfer is
skipped because of an earlier failure. -/
def stop_measurement (ssh_returncode : Int) (scpOk : String → Bool) :
    List RetrievalAction :=
  if ssh_returncode = 0 then
    .mkdirLocal :: result_files.map (fun f => .scpFile f (scpOk f))
  else []

/- ===================== Synthetic Measurement Model ===================== -/

/-- State of the process-wide `random` generator (`import random` module
state). Python's Mersenne-Twister byte stream cannot be reproduced in an
exact-arithmetic embedding; what the claims depend on is that each draw is a
deterministic function of the generator state and advances it, which this
model captures. -/
structure RNGState where
  val : Nat
deriving DecidableEq, Repr

/-- Models `random.seed(seed)`: the generator state becomes a function of
the seed alone, discarding whatever state the process had. -/
def seedGen (seed : Nat) : RNGState := ⟨seed % 2147483648⟩

/-- Advance of the generator state on one draw (deterministic stand-in for
the Mersenne-Twister step). -/
def nextRNG (g : RNGState) : RNGState :=
  ⟨(g.val * 1103515245 + 12345) % 2147483648⟩

/-- A deterministic unit sample in `[-1, 1]` extracted from the state. -/
def unitDraw (g : RNGState) : Rat :=
  ((g.val % 2001 : Nat) : Rat) / 1000 - 1

/-- Models `random.gauss(mu, sigma)`: returns `mu + sigma * z` where `z` is a
deterministic function of the process-wide generator state, and the advanced
state. -/
def gaussDraw (mu sigma : Rat) (g : RNGState) : Rat × RNGState :=
  (mu + sigma * unitDraw g, nextRNG g)

/-- The default `seed=42` argument of `MockEnergyMeasurement.__init__`
(`Mock-Server/energy_mock.py`). -/
def mockEnergyDefaultSeed : Nat := 42

/-- Models `MockEnergyMeasurement.__init__(self, seed=42)`: its body is
`random.seed(seed)`, so construction replaces the ambient process-wide
generator state with the seeded one. -/
def mockEnergyInit (seed : Nat) (_ambient : RNGState) : RNGState := seedGen seed

/-- Models `' '.join(command)`. -/
def joinSpace : List String → String
  | [] => ""
  | [s] => s
  | s :: rest => s ++ " " ++ joinSpace rest

/-- Shallow embedding of `MockEnergyMeasurement._get_workload_multiplier`. -/
def get_workload_multiplier (command : List String) : Rat :=
  let command_str := joinSpace command
  if strContains command_str "light" then 1.0
  else if strContains command_str "medium" then 1.8
  else if strContains command_str "heavy" then 2.5
  else 1.0

/-- Shallow embedding of `MockEnergyMeasurement._get_gc_power_multiplier`. -/
def get_gc_power_multiplier (command : List String) : Rat :=
  let command_str := joinSpace command
  if strContains command_str "-XX:+UseSerialGC" then 0.85
  else if strContains command_str "-XX:+UseParallelGC" then 1.0
  else if strContains command_str "-XX:+UseG1GC" then 1.12
  else 0.95

/-- Shallow embedding of `MockEnergyMeasurement._simulate_energy`: two draws
from the process-wide generator (the multiplicative `workload_factor`, then
the additive `noise`), result floored at `0.1`. Returns the energy and the
advanced generator state. -/
def simulate_energy (g : RNGState) (command : List String)
    (execution_time : Rat) : Rat × RNGState :=
  let base_power_watts : Rat :=
    if command.any (fun arg => strContains arg "java") then 12.0 else 8.0
  let workload_multiplier := get_workload_multiplier command
  let gc_multiplier := get_gc_power_multiplier command
  let (workload_factor, g1) := gaussDraw 1.0 0.05 g
  let power_watts := base_power_watts * workload_multiplier * gc_multiplier * workload_factor
  let energy_joules := power_watts * execution_time
  let (noise, g2) := gaussDraw 0 0.5 g1
  (max 0.1 (energy_joules + noise), g2)

/-- The `power_watts` value computed in
`MockEnergyMeasurement._write_energibridge_csv`:
`energy / execution_time if execution_time > 0 else 0`. -/
def csv_power_watts (energy execution_time : Rat) : Rat :=
  if execution_time > 0 then energy / execution_time else 0

/-- A full run of the command-level Synthetic Measurement Model: the process
executes a sequence of `(command, execution_time)` measurements in order,
each drawing from the process-wide generator left by the previous one, and
the energies produced are collected. Stated as a relation so that the
reproducibility claim (same generator start state and same call sequence
determine the outputs) is a theorem about executions rather than a
definitional identity. -/
inductive MockRun : RNGState → List (List String × Rat) → List Rat → Prop where
  | nil (g : RNGState) : MockRun g [] []
  | cons (g g' : RNGState) (cmd : List String) (t e : Rat)
      (rest : List (List String × Rat)) (es : List Rat) :
      simulate_energy g cmd t = (e, g') →
      MockRun g' rest es →
      MockRun g ((cmd, t) :: rest) (e :: es)

/-- Models `RunnerConfig.__init__` of
`Mock-Server/gc_energy_experiment/RunnerConfig.py` as far as the process-wide
random generator is concerned: the constructor subscribes to events and sets
plain fields but never calls `random.seed`, so the generator state is left
untouched. -/
def runnerConfigInit (ambient : RNGState) : RNGState := ambient

/-- Base energy/time/variance table of `RunnerConfig._mock_energy_measurement`
(`base_values`), including the `.get(gc_strategy, base_values['G1GC'])`
default. -/
structure GCBase where
  energy : Rat
  time : Rat
  variance : Rat
deriving DecidableEq, Repr

/-- Shallow embedding of the `base_values` dictionary lookup. -/
def base_values (gc_strategy : String) : GCBase :=
  if gc_strategy = "SerialGC" then ⟨3.2, 0.35, 0.15⟩
  else if gc_strategy = "ParallelGC" then ⟨4.1, 0.22, 0.25⟩
  else if gc_strategy = "G1GC" then ⟨3.8, 0.28, 0.35⟩
  else ⟨3.8, 0.28, 0.35⟩

/-- Shallow embedding of the `workload_multiplier` dictionary lookup
(`{'light': 1.0, 'medium': 2.3, 'heavy': 3.5}.get(workload, 1.0)`). -/
def workload_multiplier (workload : String) : Rat :=
  if workload = "light" then 1.0
  else if workload = "medium" then 2.3
  else if workload = "heavy" then 3.5
  else 1.0

/-- Shallow embedding of `jdk_factor = 1.05 if "oracle" in jdk else 1.0`. -/
def jdk_factor (jdk : String) : Rat :=
  if strContains jdk "oracle" then 1.05 else 1.0

/-- Models Python `round(q, 6)` (round to six decimal places; the tie-break
direction is immaterial to every property proved below). -/
def round6 (q : Rat) : Rat := round (q * 1000000) / 1000000

/-- Shallow embedding of `RunnerConfig._mock_energy_measurement` before the
final `round(_, 6)`: the pre-rounding `(energy_joules, execution_time,
power_watts)` triple and the advanced generator state. The parameter `pow08`
stands for the real-power map `x ↦ x ** 0.8` applied to the workload
multiplier (an irrational function not representable in exact arithmetic);
every theorem below holds for an arbitrary `pow08`. Two draws are taken from
the process-wide generator, in source order (energy first, then time). -/
def mock_energy_raw (pow08 : Rat → Rat) (g : RNGState)
    (gc_strategy workload jdk : String) : (Rat × Rat × Rat) × RNGState :=
  let wm := workload_multiplier workload
  let jf := jdk_factor jdk
  let base := base_values gc_strategy
  let energy_base := base.energy * wm * jf
  let time_base := base.time * pow08 wm
  let (d1, g1) := gaussDraw 1.0 base.variance g
  let energy_joules0 := energy_base * d1
  let (d2, g2) := gaussDraw 1.0 (base.variance * 0.8) g1
  let execution_time0 := time_base * d2
  let energy_joules := max 0.1 energy_joules0
  let execution_time := max 0.05 execution_time0
  let power_watts := energy_joules / execution_time
  ((energy_joules, execution_time, power_watts), g2)

/-- Shallow embedding of `RunnerConfig._mock_energy_measurement`: the
returned triple `(round(energy_joules, 6), round(execution_time, 6),
round(power_watts, 6))` and the advanced generator state. -/
def mock_energy_measurement (pow08 : Rat → Rat) (g : RNGState)
    (gc_strategy workload jdk : String) : (Rat × Rat × Rat) × RNGState :=
  let ((e, t, p), g') := mock_energy_raw pow08 g gc_strategy workload jdk
  ((round6 e, round6 t, round6 p), g')

/-- The factor-based model's energy with both Gaussian factors at their mean
(`random.gauss(1.0, v)` has mean `1.0`): the expectation, over repeated
seeded draws, of the pre-flooring energy `energy_base * gauss(1.0, var)`.
Used to state the claim that heavy workloads cost more energy than light
ones in expectation. -/
def mean_energy (gc_strategy workload jdk : String) : Rat :=
  (base_values gc_strategy).energy * workload_multiplier workload * jdk_factor jdk

/-- A full run of the factor-based Synthetic Measurement Model
(`RunnerConfig._mock_energy_measurement` called once per trial, in plan
order, against the process-wide generator). -/
inductive RunnerRun (pow08 : Rat → Rat) :
    RNGState → List (String × String × String) → List (Rat × Rat × Rat) → Prop where
  | nil (g : RNGState) : RunnerRun pow08 g [] []
  | cons (g g' : RNGState) (gc w j : String) (o : Rat × Rat × Rat)
      (rest : List (String × String × String)) (os : List (Rat × Rat × Rat)) :
      mock_energy_measurement pow08 g gc w j = (o, g') →
      RunnerRun pow08 g' rest os →
      RunnerRun pow08 g ((gc, w, j) :: rest) (o :: os)

/- ===================== Theorems ===================== -/

/-- C1 counterexample: the claim says a record with fewer than 9 fields
yields status `MISSING`, but `populate_run_data` leaves the initial default
`'FAILED'` in every degraded path — the record `"r1,DaCapo,G1"` (3 fields)
and a missing file both yield status `"FAILED"`, never `"MISSING"`. -/
theorem C1_short_record_not_MISSING :
    (populate_run_data (some "r1,DaCapo,G1") 1).status = "FAILED"
    ∧ (populate_run_data (some "r1,DaCapo,G1") 1).status ≠ "MISSING"
    ∧ (populate_run_data none 1).status = "FAILED"
    ∧ (populate_run_data none 1).status ≠ "MISSING" := by
  exact ⟨by decide, by decide, by decide, by decide⟩

/-- C1 (amended): parsing is total (the embedding returns a record for every
input, modelling that no exception escapes `populate_run_data`); a well-formed
record such as `"r1,DaCapo,G1,Light,openjdk,0,12.5,33.7,SUCCESS,169000"`
yields runtime 12.5, energy 33.7, status `SUCCESS`; a record whose field 7 is
the sentinel `FAILED` yields a null energy with status taken verbatim from
field 8; a record with fewer than 9 fields, a missing file, or a record whose
field 6 is non-numeric and not the sentinel all yield status `FAILED` (not
`MISSING`) with all numeric fields null. -/
theorem C1_result_parser_amended : ∀ b : Nat,
    populate_run_data (some "r1,DaCapo,G1,Light,openjdk,0,12.5,33.7,SUCCESS,169000") b
      = ⟨some (33.7 : Rat), some (12.5 : Rat), "SUCCESS", b⟩
    ∧ (∀ content, (splitOnComma (pyStrip content)).length ≥ 9 →
        (splitOnComma (pyStrip content)).getD 7 "" = "FAILED" →
        tryFloatField ((splitOnComma (pyStrip content)).getD 6 "") ≠ none →
        (populate_run_data (some content) b).energy_j = none
        ∧ (populate_run_data (some content) b).status
            = (splitOnComma (pyStrip content)).getD 8 "")
    ∧ (∀ content, (splitOnComma (pyStrip content)).length < 9 →
        populate_run_data (some content) b = ⟨none, none, "FAILED", b⟩)
    ∧ populate_run_data none b = ⟨none, none, "FAILED", b⟩
    ∧ (∀ content, tryFloatField ((splitOnComma (pyStrip content)).getD 6 "") = none →
        populate_run_data (some content) b = ⟨none, none, "FAILED", b⟩) := by
  intro b
  refine ⟨?_, ?_, ?_, rfl, ?_⟩
  · rw [show (33.7 : Rat) = floatVal (337, 1) from by norm_num [floatVal],
        show (12.5 : Rat) = floatVal (125, 1) from by norm_num [floatVal]]
    rfl
  · intro content h9 h7 h6
    simp only [populate_run_data, if_pos h9]
    rcases hrt : tryFloatField ((splitOnComma (pyStrip content)).getD 6 "") with _ | rt
    · exact absurd hrt h6
    · rw [h7]
      exact ⟨rfl, rfl⟩
  · intro content hlt
    simp only [populate_run_data]
    rw [if_neg (by omega)]
  · intro content h6
    simp only [populate_run_data]
    by_cases h9 : (splitOnComma (pyStrip content)).length ≥ 9
    · rw [if_pos h9, h6]
    · rw [if_neg h9]

/-- C1 witness: the amended theorem evaluated at concrete records — the
well-formed example record, a record with the `FAILED` sentinel in field 7,
and a 3-field record. -/
theorem C1_result_parser_amended_witness :
    populate_run_data (some "r1,DaCapo,G1,Light,openjdk,0,12.5,33.7,SUCCESS,169000") 3
      = ⟨some (33.7 : Rat), some (12.5 : Rat), "SUCCESS", 3⟩
    ∧ (populate_run_data (some "r1,DaCapo,G1,Light,openjdk,0,12.5,FAILED,TIMEOUT,x") 3).energy_j = none
    ∧ populate_run_data (some "a,b,c") 3 = ⟨none, none, "FAILED", 3⟩ := by
  refine ⟨(C1_result_parser_amended 3).1,
    ((C1_result_parser_amended 3).2.1 "r1,DaCapo,G1,Light,openjdk,0,12.5,FAILED,TIMEOUT,x"
      (by decide) (by decide) (by decide)).1,
    (C1_result_parser_amended 3).2.2.1 "a,b,c" (by decide)⟩

/-- Unfolding lemma: the `try` field evaluation raises exactly when the field
is not the sentinel and does not parse as a float. -/
theorem tryFloatField_eq_none_iff (s : String) :
    tryFloatField s = none ↔ s ≠ "FAILED" ∧ parseFloat s = none := by
  unfold tryFloatField
  by_cases h : s = "FAILED"
  · simp [h]
  · simp [h, Option.map_eq_none']

/-- Unfolding lemma: the stored value is `None` exactly for the sentinel, and
the parsed value otherwise. -/
theorem tryFloatField_eq_some_iff (s : String) (v : Option Rat) :
    tryFloatField s = some v ↔
      (s = "FAILED" ∧ v = none) ∨ (s ≠ "FAILED" ∧ ∃ q, parseFloat s = some q ∧ v = some q) := by
  unfold tryFloatField
  by_cases h : s = "FAILED"
  · simp [h, eq_comm]
  · simp [h, Option.map_eq_some']
    constructor
    · rintro ⟨q, hq, rfl⟩; exact ⟨q, hq, rfl⟩
    · rintro ⟨q, hq, rfl⟩; exact ⟨q, hq, rfl⟩

/-- C7 counterexample: the claim says numeric fields are null whenever
status ≠ SUCCESS, but for the record `"a,b,c,d,e,f,12.5,33.7,TIMEOUT"` the
parser stores status `"TIMEOUT"` (≠ `SUCCESS`) together with non-null
runtime and energy. -/
theorem C7_nonnull_with_non_success_status :
    (populate_run_data (some "a,b,c,d,e,f,12.5,33.7,TIMEOUT") 1).status = "TIMEOUT"
    ∧ (populate_run_data (some "a,b,c,d,e,f,12.5,33.7,TIMEOUT") 1).status ≠ "SUCCESS"
    ∧ (populate_run_data (some "a,b,c,d,e,f,12.5,33.7,TIMEOUT") 1).runtime_s ≠ none
    ∧ (populate_run_data (some "a,b,c,d,e,f,12.5,33.7,TIMEOUT") 1).energy_j ≠ none := by
  exact ⟨by decide, by decide, by decide, by decide⟩

/-- Evaluation lemma: the shape of the parsed record for a well-formed length
(at least 9 fields), by cases on the two fallible field evaluations. -/
theorem populate_eq_of_ge9 (content : String) (b : Nat)
    (h9 : (splitOnComma (pyStrip content)).length ≥ 9) :
    populate_run_data (some content) b
      = match tryFloatField ((splitOnComma (pyStrip content)).getD 6 "") with
        | none => ⟨none, none, "FAILED", b⟩
        | some rt =>
          match tryFloatField ((splitOnComma (pyStrip content)).getD 7 "") with
          | none => ⟨none, rt, "FAILED", b⟩
          | some en => ⟨en, rt, (splitOnComma (pyStrip content)).getD 8 "", b⟩ := by
  simp only [populate_run_data, if_pos h9]

/-- Evaluation lemma: fewer than 9 fields leaves the defaults untouched. -/
theorem populate_eq_of_lt9 (content : String) (b : Nat)
    (h9 : (splitOnComma (pyStrip content)).length < 9) :
    populate_run_data (some content) b = ⟨none, none, "FAILED", b⟩ := by
  simp only [populate_run_data]
  rw [if_neg (by omega)]

/-- C7 (amended): the nullable numeric fields of the returned record are
determined by the record fields alone, independently of the status token:
runtime is null exactly when the record is missing, has fewer than 9 fields,
or field 6 is the sentinel `FAILED` or fails to parse; energy is null
exactly when the record is missing, has fewer than 9 fields, field 6 raises
(non-sentinel, unparseable), or field 7 is the sentinel or fails to parse.
The status token being different from `SUCCESS` does not force nullness. -/
theorem C7_nullability_characterisation : ∀ (content : String) (b : Nat),
    ((populate_run_data (some content) b).runtime_s = none ↔
      (splitOnComma (pyStrip content)).length < 9
      ∨ (splitOnComma (pyStrip content)).getD 6 "" = "FAILED"
      ∨ parseFloat ((splitOnComma (pyStrip content)).getD 6 "") = none)
    ∧ ((populate_run_data (some content) b).energy_j = none ↔
      (splitOnComma (pyStrip content)).length < 9
      ∨ ((splitOnComma (pyStrip content)).getD 6 "" ≠ "FAILED"
          ∧ parseFloat ((splitOnComma (pyStrip content)).getD 6 "") = none)
      ∨ (splitOnComma (pyStrip content)).getD 7 "" = "FAILED"
      ∨ parseFloat ((splitOnComma (pyStrip content)).getD 7 "") = none)
    ∧ (populate_run_data none b).runtime_s = none
    ∧ (populate_run_data none b).energy_j = none := by
  intro content b
  by_cases h9 : (splitOnComma (pyStrip content)).length ≥ 9
  · have he := populate_eq_of_ge9 content b h9
    refine ⟨?_, ?_, rfl, rfl⟩
    · rcases h6 : tryFloatField ((splitOnComma (pyStrip content)).getD 6 "") with _ | rt
      · rw [h6] at he
        rw [he]
        have h := (tryFloatField_eq_none_iff _).mp h6
        exact iff_of_true rfl (Or.inr (Or.inr h.2))
      · rw [h6] at he
        rcases h7 : tryFloatField ((splitOnComma (pyStrip content)).getD 7 "") with _ | en <;>
          rw [h7] at he <;> rw [he] <;>
          rcases (tryFloatField_eq_some_iff _ _).mp h6 with ⟨hs, rfl⟩ | ⟨hs, q, hq, rfl⟩
        · exact iff_of_true rfl (Or.inr (Or.inl hs))
        · refine iff_of_false (by simp) ?_
          rintro (h | h | h)
          · omega
          · exact hs h
          · rw [hq] at h; cases h
        · exact iff_of_true rfl (Or.inr (Or.inl hs))
        · refine iff_of_false (by simp) ?_
          rintro (h | h | h)
          · omega
          · exact hs h
          · rw [hq] at h; cases h
    · rcases h6 : tryFloatField ((splitOnComma (pyStrip content)).getD 6 "") with _ | rt
      · rw [h6] at he
        rw [he]
        exact iff_of_true rfl (Or.inr (Or.inl ((tryFloatField_eq_none_iff _).mp h6)))
      · rw [h6] at he
        rcases h7 : tryFloatField ((splitOnComma (pyStrip content)).getD 7 "") with _ | en
        · rw [h7] at he
          rw [he]
          have h := (tryFloatField_eq_none_iff _).mp h7
          exact iff_of_true rfl (Or.inr (Or.inr (Or.inr h.2)))
        · rw [h7] at he
          rw [he]
          rcases (tryFloatField_eq_some_iff _ _).mp h7 with ⟨hs7, rfl⟩ | ⟨hs7, q7, hq7, rfl⟩
          · exact iff_of_true rfl (Or.inr (Or.inr (Or.inl hs7)))
          · refine iff_of_false (by simp) ?_
            rintro (h | h | h | h)
            · omega
            · have hn := (tryFloatField_eq_none_iff _).mpr h
              rw [hn] at h6
              cases h6
            · exact hs7 h
            · rw [hq7] at h; cases h
  · have he := populate_eq_of_lt9 content b (by omega)
    refine ⟨?_, ?_, rfl, rfl⟩ <;> (rw [he]; exact iff_of_true rfl (Or.inl (by omega)))

/-- C10: for a record with at least 9 fields whose two numeric field
evaluations do not raise (they parse, or carry the sentinel), the status
stored in the result is the verbatim string of field 8 — no validation
against the set {SUCCESS, FAILED, TIMEOUT, MISSING} is performed. -/
theorem C10_status_verbatim : ∀ (content : String) (b : Nat),
    (splitOnComma (pyStrip content)).length ≥ 9 →
    tryFloatField ((splitOnComma (pyStrip content)).getD 6 "") ≠ none →
    tryFloatField ((splitOnComma (pyStrip content)).getD 7 "") ≠ none →
    (populate_run_data (some content) b).status
      = (splitOnComma (pyStrip content)).getD 8 "" := by
  intro content b h9 h6 h7
  have he := populate_eq_of_ge9 content b h9
  rcases hr6 : tryFloatField ((splitOnComma (pyStrip content)).getD 6 "") with _ | rt
  · exact absurd hr6 h6
  · rcases hr7 : tryFloatField ((splitOnComma (pyStrip content)).getD 7 "") with _ | en
    · exact absurd hr7 h7
    · rw [hr6, hr7] at he
      rw [he]

/-- C10 witness: a record whose field 8 is the out-of-vocabulary token
`BANANA` has that token recorded unchanged as the trial's terminal status. -/
theorem C10_status_verbatim_witness :
    (populate_run_data (some "a,b,c,d,e,f,1.5,2.5,BANANA,tail") 1).status = "BANANA"
    ∧ ("BANANA" : String) ∉ (["SUCCESS", "FAILED", "TIMEOUT", "MISSING"] : List String) := by
  refine ⟨?_, by decide⟩
  have h := C10_status_verbatim "a,b,c,d,e,f,1.5,2.5,BANANA,tail" 1
    (by decide) (by decide) (by decide)
  exact h.trans (by decide)

/-- Invariant of the batch state: after `k + 1` completed trials the current
batch is `k / N + 1` and the in-batch count is `k % N + 1` (for batch size
`N > 0`, assuming the operator confirms every pause). -/
theorem runTrials_succ_eq (N : Nat) (hN : 0 < N) :
    ∀ k : Nat, runTrials N (k + 1) = ⟨k / N + 1, k % N + 1⟩ := by
  intro k
  induction k with
  | zero =>
    simp [runTrials, trialStep, before_run, start_run, batchInitState, Nat.not_le.mpr hN]
  | succ k ih =>
    have hlt : k % N < N := Nat.mod_lt k hN
    have hrep : k + 1 = (k % N + 1) + N * (k / N) := by
      have hdm := Nat.div_add_mod k N
      linarith [hdm]
    show (trialStep N (runTrials N (k + 1))).2 = _
    rw [ih]
    by_cases hc : k % N + 1 ≥ N
    · have heq : k % N + 1 = N := Nat.le_antisymm (Nat.succ_le_of_lt hlt) hc
      have hdiv : (k + 1) / N = 1 + k / N := by
        rw [hrep, heq, Nat.add_mul_div_left _ _ hN, Nat.div_self hN]
      have hmod : (k + 1) % N = 0 := by
        rw [hrep, heq, Nat.add_mul_mod_self_left, Nat.mod_self]
      simp [trialStep, before_run, start_run, hc, hdiv, hmod]
      linarith
    · have hcl : k % N + 1 < N := Nat.not_le.mp hc
      have hdiv : (k + 1) / N = k / N := by
        rw [hrep, Nat.add_mul_div_left _ _ hN, Nat.div_eq_of_lt hcl, Nat.zero_add]
      have hmod : (k + 1) % N = k % N + 1 := by
        rw [hrep, Nat.add_mul_mod_self_left, Nat.mod_eq_of_lt hcl]
      simp [trialStep, before_run, start_run, hc, hdiv, hmod]

/-- C2: for every batch size `N > 0`, the scheduler requests operator
confirmation exactly before trials `N+1, 2N+1, 3N+1, …` (those of the form
`m * N + 1` with `m ≥ 1`), never before trial 1; on confirmation it
increments the batch number and resets the in-batch count to zero; and the
batch number recorded with trial `k` equals `⌈k / N⌉ = (k + N - 1) / N`. -/
theorem C2_batch_scheduler : ∀ (N k : Nat), 0 < N → 1 ≤ k →
    (pauseBefore N k = true ↔ ∃ m, 1 ≤ m ∧ k = m * N + 1)
    ∧ pauseBefore N 1 = false
    ∧ (∀ s : BatchState, s.runs_in_batch ≥ N →
        before_run N s = (true, ⟨s.current_batch + 1, 0⟩))
    ∧ batchOfTrial N k = (k + N - 1) / N := by
  intro N k hN hk
  have hpause1 : pauseBefore N 1 = false := by
    simp [pauseBefore, runTrials, trialStep, before_run, start_run, batchInitState,
      Nat.not_le.mpr hN]
  refine ⟨?_, hpause1, ?_, ?_⟩
  · rcases k with _ | k
    · omega
    · rcases k with _ | j
      · rw [hpause1]
        constructor
        · intro h; cases h
        · rintro ⟨m, hm, habs⟩
          exfalso
          nlinarith
      · have hst : runTrials N (j + 1 + 1 - 1) = ⟨j / N + 1, j % N + 1⟩ :=
          runTrials_succ_eq N hN j
        have hlt : j % N < N := Nat.mod_lt j hN
        unfold pauseBefore
        rw [hst]
        simp only [trialStep, before_run]
        by_cases hc : j % N + 1 ≥ N
        · have heq : j % N + 1 = N := Nat.le_antisymm (Nat.succ_le_of_lt hlt) hc
          simp only [hc, if_pos hc]
          refine iff_of_true rfl ⟨j / N + 1, Nat.le_add_left 1 _, ?_⟩
          have hdm := Nat.div_add_mod j N
          have : (j / N + 1) * N = N * (j / N) + N := by ring
          linarith
        · simp only [if_neg hc]
          refine iff_of_false (by simp) ?_
          rintro ⟨m, hm, hmk⟩
          have hj : j + 1 = m * N := by omega
          have : (j + 1) % N = 0 := by
            rw [hj, Nat.mul_mod_left]
          have hmod : (j + 1) % N = j % N + 1 := by
            have hcl : j % N + 1 < N := Nat.not_le.mp hc
            have hrep : j + 1 = (j % N + 1) + N * (j / N) := by
              linarith [Nat.div_add_mod j N]
            rw [hrep, Nat.add_mul_mod_self_left, Nat.mod_eq_of_lt hcl]
          omega
  · intro s hs
    simp [before_run, hs]
  · rcases k with _ | j
    · omega
    · unfold batchOfTrial
      rw [runTrials_succ_eq N hN j]
      have : j + 1 + N - 1 = j + N := by omega
      rw [this, Nat.add_div_right j hN]

/-- C2 witness: with batch size 2, confirmation is requested before trial 3
(= 1·2 + 1) and not before trial 1; trial 3 is recorded in batch 2. -/
theorem C2_batch_scheduler_witness :
    pauseBefore 2 3 = true ∧ pauseBefore 2 1 = false ∧ batchOfTrial 2 3 = 2 := by
  have h3 := C2_batch_scheduler 2 3 (by decide) (by decide)
  exact ⟨h3.1.mpr ⟨1, by decide, by decide⟩, h3.2.1, h3.2.2.2.trans (by decide)⟩

/-- C3: classification of one remote trial attempt by `interact`: a timeout
is classified `TIMEOUT` and is never `SUCCESS` nor `FAILED`; exit code 0 is
classified `SUCCESS`; a nonzero exit code is classified `FAILED` carrying
exactly the first `min 500 |stderr|` characters of stderr, which is a
nonempty excerpt whenever stderr was produced. -/
theorem C3_outcome_classification :
    ((interact .timeoutExpired).2 = .timeout
      ∧ (interact .timeoutExpired).2 ≠ .success
      ∧ ∀ e : String, (interact .timeoutExpired).2 ≠ .failed e)
    ∧ (∀ out err : String, (interact (.completed 0 out err)).2 = .success)
    ∧ (∀ (rc : Int) (out err : String), rc ≠ 0 →
        (interact (.completed rc out err)).2 = .failed (takeChars 500 err)
        ∧ (takeChars 500 err).data = err.data.take 500
        ∧ (takeChars 500 err).length = min 500 err.length
        ∧ (err ≠ "" → takeChars 500 err ≠ "")) := by
  refine ⟨⟨rfl, by decide, fun e => by simp [interact]⟩, fun out err => rfl, ?_⟩
  intro rc out err hrc
  refine ⟨by simp [interact, hrc], rfl, ?_, ?_⟩
  · show (takeChars 500 err).data.length = min 500 err.data.length
    simp [takeChars]
  · intro hne hempty
    apply hne
    have hd : err.data.take 500 = [] := congrArg String.data hempty
    have : err.data = [] := by
      rcases herr : err.data with _ | ⟨c, cs⟩
      · rfl
      · rw [herr] at hd
        simp [List.take] at hd
    exact String.ext this

/-- C3 witness: the classification evaluated at a timeout, at exit code 0,
and at exit code 2 with stderr `"boom"` (nonempty excerpt `"boom"`). -/
theorem C3_outcome_classification_witness :
    (interact .timeoutExpired).2 = .timeout
    ∧ (interact (.completed 0 "out" "")).2 = .success
    ∧ (interact (.completed 2 "" "boom")).2 = .failed "boom"
    ∧ takeChars 500 "boom" ≠ "" := by
  have h := C3_outcome_classification
  refine ⟨h.1.1, h.2.1 "out" "", ?_, ?_⟩
  · exact (h.2.2 2 "" "boom" (by decide)).1.trans (by decide)
  · exact (h.2.2 2 "" "boom" (by decide)).2.2.2 (by decide)

/-- C5: the issued remote command is the single line
`cd <dir> && ./<script> <subject> <gc> <workload> <jdk> <rep> <run_num>`,
where the script is `script_for subject` — a function of the subject factor
alone: the service-style subjects PetClinic, TodoApp and ANDIE select the
service-apps script and every other subject selects the benchmark script;
gc, workload, jdk, repetition and sequence number do not influence the
selection. -/
theorem C5_remote_command :
    ∀ laptop_exp_dir subject gc workload jdk rep run_num : String,
      start_measurement_cmd laptop_exp_dir subject gc workload jdk rep run_num
        = "cd " ++ laptop_exp_dir ++ " && " ++ "./" ++ script_for subject ++ " " ++ subject
          ++ " " ++ gc ++ " " ++ workload ++ " " ++ jdk ++ " " ++ rep ++ " " ++ run_num
      ∧ (script_for subject = "Service_Apps_Run_Single_Experiment.sh"
          ↔ (subject = "PetClinic" ∨ subject = "TodoApp" ∨ subject = "ANDIE"))
      ∧ (script_for subject = "Run_Single_Experiment.sh"
          ↔ ¬(subject = "PetClinic" ∨ subject = "TodoApp" ∨ subject = "ANDIE")) := by
  intro laptop_exp_dir subject gc workload jdk rep run_num
  have hmem : subject ∈ service_subjects ↔
      (subject = "PetClinic" ∨ subject = "TodoApp" ∨ subject = "ANDIE") := by
    simp [service_subjects]
  refine ⟨rfl, ?_, ?_⟩
  · unfold script_for
    by_cases h : subject ∈ service_subjects
    · rw [if_pos h]
      exact iff_of_true rfl (hmem.mp h)
    · rw [if_neg h]
      exact iff_of_false (by decide) (fun hc => h (hmem.mpr hc))
  · unfold script_for
    by_cases h : subject ∈ service_subjects
    · rw [if_pos h]
      exact iff_of_false (by decide) (fun hc => hc (hmem.mp h))
    · rw [if_neg h]
      exact iff_of_true rfl (fun hc => h (hmem.mpr hc))

/-- C6: artifact retrieval is attempted exactly when the remote exit code is
0; when attempted, the local per-trial directory is created (parents
included) before any transfer, and both expected files are attempted
independently — whatever the individual `scp` outcomes `scpOk` are, the
trace always contains one attempt per file, so one file's failure neither
aborts the other's attempt nor raises. -/
theorem C6_artifact_retrieval :
    ∀ (rc : Int) (scpOk : String → Bool),
      (stop_measurement rc scpOk ≠ [] ↔ rc = 0)
      ∧ stop_measurement 0 scpOk
          = [.mkdirLocal, .scpFile "energy.csv" (scpOk "energy.csv"),
             .scpFile "result.csv" (scpOk "result.csv")]
      ∧ (stop_measurement rc scpOk = [] ↔ rc ≠ 0) := by
  intro rc scpOk
  by_cases h : rc = 0
  · subst h
    refine ⟨iff_of_true (by simp [stop_measurement, result_files]) rfl, ?_, ?_⟩
    · simp [stop_measurement, result_files]
    · simp [stop_measurement, result_files]
  · refine ⟨iff_of_false (by simp [stop_measurement, h]) h, ?_, ?_⟩
    · simp [stop_measurement, result_files]
    · simp [stop_measurement, h]

/-- Determinism of the command-level model's execution relation: one start
state of the process-wide generator and one call sequence determine the
output sequence. -/
theorem mockRun_deterministic :
    ∀ {g : RNGState} {ins : List (List String × Rat)} {o1 o2 : List Rat},
      MockRun g ins o1 → MockRun g ins o2 → o1 = o2 := by
  intro g ins o1 o2 h1 h2
  induction h1 generalizing o2 with
  | nil g => cases h2; rfl
  | cons g g' cmd t e rest es heq h ih =>
    cases h2 with
    | cons _ g2 _ _ e2 _ es2 heq2 hrest2 =>
      rw [heq] at heq2
      injection heq2 with he hg
      subst he
      subst hg
      rw [ih hrest2]

/-- Determinism of the factor-based model's execution relation. -/
theorem runnerRun_deterministic :
    ∀ {pow08 : Rat → Rat} {g : RNGState} {ins : List (String × String × String)}
      {o1 o2 : List (Rat × Rat × Rat)},
      RunnerRun pow08 g ins o1 → RunnerRun pow08 g ins o2 → o1 = o2 := by
  intro pow08 g ins o1 o2 h1 h2
  induction h1 generalizing o2 with
  | nil g => cases h2; rfl
  | cons g g' gc w j o rest os heq h ih =>
    cases h2 with
    | cons _ g2 _ _ _ o2' _ os2 heq2 hrest2 =>
      rw [heq] at heq2
      injection heq2 with he hg
      subst he
      subst hg
      rw [ih hrest2]

/-- C4 (amended): the command-level model `MockEnergyMeasurement` seeds the
process-wide generator with its `seed` argument (default 42) at
construction, so two separate process runs with the same seed and the same
call sequence produce identical output sequences regardless of the ambient
generator state each process started with; the factor-based model
(`RunnerConfig._mock_energy_measurement`) draws from the same process-wide
generator and is deterministic given equal generator state at call time,
but its constructor performs no seeding. -/
theorem C4_seeded_reproducibility :
    (∀ (seed : Nat) (amb1 amb2 : RNGState) (ins : List (List String × Rat))
        (o1 o2 : List Rat),
      MockRun (mockEnergyInit seed amb1) ins o1 →
      MockRun (mockEnergyInit seed amb2) ins o2 → o1 = o2)
    ∧ (∀ amb : RNGState, mockEnergyInit mockEnergyDefaultSeed amb = seedGen 42)
    ∧ (∀ (pow08 : Rat → Rat) (g : RNGState) (ins : List (String × String × String))
        (o1 o2 : List (Rat × Rat × Rat)),
      RunnerRun pow08 g ins o1 → RunnerRun pow08 g ins o2 → o1 = o2) := by
  refine ⟨?_, fun amb => rfl, ?_⟩
  · intro seed amb1 amb2 ins o1 o2 h1 h2
    exact mockRun_deterministic h1 h2
  · intro pow08 g ins o1 o2 h1 h2
    exact runnerRun_deterministic h1 h2

/-- C4 witness: two process runs of the seeded command-level model, one from
ambient generator state 7 and one from ambient state 1234, both constructed
with seed 42 and fed the single call `(["java"], 2)`, produce the same
energy list. -/
theorem C4_seeded_reproducibility_witness :
    [(simulate_energy (mockEnergyInit 42 ⟨7⟩) ["java"] 2).1]
      = [(simulate_energy (mockEnergyInit 42 ⟨1234⟩) ["java"] 2).1] := by
  have h1 : MockRun (mockEnergyInit 42 ⟨7⟩) [(["java"], 2)]
      [(simulate_energy (mockEnergyInit 42 ⟨7⟩) ["java"] 2).1] :=
    MockRun.cons _ _ _ _ _ _ _ rfl (MockRun.nil _)
  have h2 : MockRun (mockEnergyInit 42 ⟨1234⟩) [(["java"], 2)]
      [(simulate_energy (mockEnergyInit 42 ⟨1234⟩) ["java"] 2).1] :=
    MockRun.cons _ _ _ _ _ _ _ rfl (MockRun.nil _)
  exact C4_seeded_reproducibility.1 42 ⟨7⟩ ⟨1234⟩ [(["java"], 2)] _ _ h1 h2

/-- C4 counterexample: the factor-based Synthetic Measurement Model cited by
the claim (`RunnerConfig` of `Mock-Server/gc_energy_experiment/RunnerConfig.py`)
does not seed the process-wide generator at model construction — its
constructor leaves the generator state unchanged and in particular not equal
to the state produced by `random.seed(42)` — and two process runs of that
model from different ambient generator states produce different energies for
the same `(gc, workload, jdk)` input. -/
theorem C4_unseeded_factor_model :
    runnerConfigInit ⟨7⟩ = ⟨7⟩
    ∧ runnerConfigInit ⟨7⟩ ≠ seedGen 42
    ∧ (mock_energy_measurement (fun x => x) (runnerConfigInit ⟨7⟩) "G1GC" "light" "openjdk").1.1
        ≠ (mock_energy_measurement (fun x => x) (seedGen 42) "G1GC" "light" "openjdk").1.1 := by
  have hj : strContains "openjdk" "oracle" = false := by decide
  have hb : base_values "G1GC" = (⟨3.8, 0.28, 0.35⟩ : GCBase) := rfl
  have hw : workload_multiplier "light" = 1.0 := rfl
  refine ⟨rfl, by decide, ?_⟩
  simp only [mock_energy_measurement, mock_energy_raw, gaussDraw, unitDraw, nextRNG, seedGen,
    hb, hw, jdk_factor, hj, runnerConfigInit, round6]
  norm_num [round_eq, max_def]

/-- Rounding to six decimals is monotone. -/
theorem round6_le_round6 {a b : Rat} (h : a ≤ b) : round6 a ≤ round6 b := by
  unfold round6
  have hr : round (a * 1000000) ≤ round (b * 1000000) := by
    rw [round_eq, round_eq]
    exact Int.floor_le_floor (by linarith)
  exact (div_le_div_iff_of_pos_right (by norm_num)).mpr (Int.cast_le.mpr hr)

/-- Rounding to six decimals fixes the grid point 0.1. -/
theorem round6_tenth : round6 0.1 = 0.1 := by
  norm_num [round6, round_eq]

/-- Rounding to six decimals fixes the grid point 0.05. -/
theorem round6_twentieth : round6 0.05 = 0.05 := by
  norm_num [round6, round_eq]

/-- Evaluation lemma: the pre-rounding factor-based model output written out
explicitly (both generator draws expanded). -/
theorem mock_energy_raw_eq (pow08 : Rat → Rat) (g : RNGState) (gc w j : String) :
    mock_energy_raw pow08 g gc w j
      = ((max 0.1 ((base_values gc).energy * workload_multiplier w * jdk_factor j
            * (1.0 + (base_values gc).variance * unitDraw g)),
          max 0.05 ((base_values gc).time * pow08 (workload_multiplier w)
            * (1.0 + (base_values gc).variance * 0.8 * unitDraw (nextRNG g))),
          max 0.1 ((base_values gc).energy * workload_multiplier w * jdk_factor j
            * (1.0 + (base_values gc).variance * unitDraw g))
            / max 0.05 ((base_values gc).time * pow08 (workload_multiplier w)
                * (1.0 + (base_values gc).variance * 0.8 * unitDraw (nextRNG g)))),
         nextRNG (nextRNG g)) := rfl

/-- Evaluation lemma: the returned triple is the raw triple rounded to six
decimals. -/
theorem mock_energy_measurement_eq (pow08 : Rat → Rat) (g : RNGState) (gc w j : String) :
    mock_energy_measurement pow08 g gc w j
      = ((round6 (mock_energy_raw pow08 g gc w j).1.1,
          round6 (mock_energy_raw pow08 g gc w j).1.2.1,
          round6 (mock_energy_raw pow08 g gc w j).1.2.2),
         (mock_energy_raw pow08 g gc w j).2) := rfl

/-- C8: every output of the synthetic measurement model is floored at a
small positive constant — the factor-based model's energy is at least 0.1 J
and its runtime at least 0.05 s (before and after the 6-decimal rounding,
so never zero or negative), its power is exactly energy / runtime with
runtime positive; the command-based model's energy is at least 0.1 J; and
the CSV writer's division is guarded: power is energy / time when time > 0
and 0 when time = 0. -/
theorem C8_output_floors :
    (∀ (pow08 : Rat → Rat) (g : RNGState) (gc w j : String),
      0.1 ≤ (mock_energy_raw pow08 g gc w j).1.1
      ∧ 0.05 ≤ (mock_energy_raw pow08 g gc w j).1.2.1
      ∧ 0 < (mock_energy_raw pow08 g gc w j).1.2.1
      ∧ (mock_energy_raw pow08 g gc w j).1.2.2
          = (mock_energy_raw pow08 g gc w j).1.1 / (mock_energy_raw pow08 g gc w j).1.2.1
      ∧ 0.1 ≤ (mock_energy_measurement pow08 g gc w j).1.1
      ∧ 0.05 ≤ (mock_energy_measurement pow08 g gc w j).1.2.1)
    ∧ (∀ (g : RNGState) (cmd : List String) (t : Rat), 0.1 ≤ (simulate_energy g cmd t).1)
    ∧ (∀ energy t : Rat, 0 < t → csv_power_watts energy t = energy / t)
    ∧ (∀ energy : Rat, csv_power_watts energy 0 = 0) := by
  refine ⟨?_, ?_, ?_, ?_⟩
  · intro pow08 g gc w j
    rw [mock_energy_measurement_eq, mock_energy_raw_eq]
    refine ⟨le_max_left _ _, le_max_left _ _,
      lt_of_lt_of_le (by norm_num) (le_max_left _ _), rfl, ?_, ?_⟩
    · exact le_trans (le_of_eq round6_tenth.symm) (round6_le_round6 (le_max_left _ _))
    · exact le_trans (le_of_eq round6_twentieth.symm) (round6_le_round6 (le_max_left _ _))
  · intro g cmd t
    have hs : simulate_energy g cmd t
        = (max 0.1 ((if cmd.any (fun arg => strContains arg "java") then (12.0 : Rat) else 8.0)
              * get_workload_multiplier cmd * get_gc_power_multiplier cmd
              * (1.0 + 0.05 * unitDraw g) * t
            + (0 + 0.5 * unitDraw (nextRNG g))),
           nextRNG (nextRNG g)) := rfl
    rw [hs]
    exact le_max_left _ _
  · intro energy t ht
    simp [csv_power_watts, ht]
  · intro energy
    simp [csv_power_watts]

/-- C8 witness: the floors and the guard evaluated at a concrete generator
state and input (`G1GC`, `light`, `openjdk`, identity in place of the
irrational power map), and the guarded division at time 0. -/
theorem C8_output_floors_witness :
    0.1 ≤ (mock_energy_raw (fun x => x) ⟨7⟩ "G1GC" "light" "openjdk").1.1
    ∧ 0.05 ≤ (mock_energy_raw (fun x => x) ⟨7⟩ "G1GC" "light" "openjdk").1.2.1
    ∧ 0.1 ≤ (simulate_energy ⟨7⟩ ["java"] 2).1
    ∧ csv_power_watts 5 0 = 0
    ∧ csv_power_watts 5 2 = 5 / 2 := by
  have h := C8_output_floors
  exact ⟨(h.1 (fun x => x) ⟨7⟩ "G1GC" "light" "openjdk").1,
    (h.1 (fun x => x) ⟨7⟩ "G1GC" "light" "openjdk").2.1,
    h.2.1 ⟨7⟩ ["java"] 2,
    h.2.2.2 5,
    h.2.2.1 5 2 (by norm_num)⟩

/-- Positivity of the base-energy table (all three entries and the default). -/
theorem base_values_energy_pos (gc : String) : 0 < (base_values gc).energy := by
  unfold base_values
  split_ifs <;> norm_num

/-- Positivity of the JDK factor (both branches). -/
theorem jdk_factor_pos (j : String) : 0 < jdk_factor j := by
  unfold jdk_factor
  split_ifs <;> norm_num

/-- C9: holding gc and jdk fixed, the expected energy (both Gaussian factors
at their mean) of the factor-based model is strictly greater for workload
`heavy` than for `light`; the command-based model's deterministic workload
multiplier for a command naming `heavy` (and not `light`/`medium`, per the
elif chain) is 2.5, strictly above the 1.0 applied for `light`; the
factor-based multipliers are 3.5 for `heavy` versus 1.0 for `light`. -/
theorem C9_heavy_exceeds_light :
    (∀ cmd : List String,
      strContains (joinSpace cmd) "light" = false →
      strContains (joinSpace cmd) "medium" = false →
      strContains (joinSpace cmd) "heavy" = true →
      get_workload_multiplier cmd = 2.5)
    ∧ (∀ cmd : List String, strContains (joinSpace cmd) "light" = true →
        get_workload_multiplier cmd = 1.0)
    ∧ (1.0 : Rat) < 2.5
    ∧ workload_multiplier "heavy" = 3.5
    ∧ workload_multiplier "light" = 1.0
    ∧ (1.0 : Rat) < 3.5
    ∧ (∀ gc j : String, mean_energy gc "light" j < mean_energy gc "heavy" j) := by
  refine ⟨?_, ?_, by norm_num, rfl, rfl, by norm_num, ?_⟩
  · intro cmd hl hm hh
    simp [get_workload_multiplier, hl, hm, hh]
  · intro cmd hl
    simp [get_workload_multiplier, hl]
  · intro gc j
    have he := base_values_energy_pos gc
    have hj := jdk_factor_pos j
    have h35 : workload_multiplier "heavy" = 3.5 := rfl
    have h10 : workload_multiplier "light" = 1.0 := rfl
    unfold mean_energy
    rw [h35, h10]
    nlinarith

/-- C9 witness: the multiplier rule evaluated on concrete commands (a
`--workload=heavy` command and a `--workload=light` command) and the mean
energies at `G1GC`/`openjdk`. -/
theorem C9_heavy_exceeds_light_witness :
    get_workload_multiplier ["java", "--workload=heavy"] = 2.5
    ∧ get_workload_multiplier ["java", "--workload=light"] = 1.0
    ∧ mean_energy "G1GC" "light" "openjdk" < mean_energy "G1GC" "heavy" "openjdk" := by
  have h := C9_heavy_exceeds_light
  exact ⟨h.1 ["java", "--workload=heavy"] (by decide) (by decide) (by decide),
    h.2.1 ["java", "--workload=light"] (by decide),
    h.2.2.2.2.2.2 "G1GC" "openjdk"⟩
